import Mathlib

/-!
Verification of the typestate Light module (`src/typestate/src/main.rs`) of
the idiomatic-rust repository.  The module offers three representations of a
toggleable light:

* the naive `Light`, a struct with a `status : bool` flag and a `u8`
  intensity, mutated in place;
* the phantom-marker `Luz<S>`, whose state lives only in the type parameter
  (`LuzOff` / `LuzOn` are zero-sized markers);
* the data-bearing `Lumiere<S>`, whose `LumiereOn` state carries the `u8`
  intensity payload while `LumiereOff` carries nothing.

The embedding below is shallow: in-place mutation becomes a function
returning the updated value, and the `u8` intensity becomes a natural
number reduced modulo 256 at each store (no arithmetic is ever performed on
it in the source, so this is the only place the machine width matters).
-/

namespace IdiomaticRust

/-- Naive light struct: `status: bool` and `intensity: u8` (modelled as a
natural number, stores reduce modulo 256). -/
structure Light where
  status : Bool
  intensity : Nat
deriving DecidableEq

/-- Source `Light::is_on`: returns the `status` field. -/
def Light.is_on (l : Light) : Bool :=
  l.status

/-- Source `Light::new`: status `false`, intensity `0`. -/
def Light.new : Light :=
  { status := false, intensity := 0 }

/-- Source `Light::toggle`: matches on `is_on()` first (On to Off sets
intensity to 0, Off to On sets intensity to 10), then negates `status`. -/
def Light.toggle (l : Light) : Light :=
  let l1 :=
    match l.is_on with
    | true => { l with intensity := 0 }
    | false => { l with intensity := 10 }
  { l1 with status := !l1.status }

/-- Source `Light::regulate_intensity`: stores the argument only when
`is_on()` holds, otherwise leaves the struct untouched. -/
def Light.regulate_intensity (l : Light) (intensity : Nat) : Light :=
  if l.is_on then { l with intensity := intensity % 256 } else l

/-- States of the naive `Light` reachable through the public operations
`new`, `toggle` and `regulate_intensity`. -/
inductive Light.Reachable : Light → Prop
  | new : Light.Reachable Light.new
  | toggle {l : Light} : Light.Reachable l → Light.Reachable l.toggle
  | regulate {l : Light} (v : Nat) :
      Light.Reachable l → Light.Reachable (l.regulate_intensity v)

/-- Phantom state marker `LuzOff`. -/
structure LuzOff where
deriving DecidableEq

/-- Phantom state marker `LuzOn`. -/
structure LuzOn where
deriving DecidableEq

/-- Marker trait `LuzState` (no methods). -/
class LuzState (S : Type) where

instance : LuzState LuzOn := ⟨⟩

instance : LuzState LuzOff := ⟨⟩

/-- Source `Luz<S: LuzState>`: carries only `PhantomData<S>`, modelled as a
unit marker field. -/
structure Luz (S : Type) where
  marker : Unit
deriving DecidableEq

/-- Source `Luz<LuzOff>::new`. -/
def Luz.new : Luz LuzOff :=
  ⟨()⟩

/-- Source `impl Luz<LuzOff>` `toggle`: consumes the off handle, returns an
on handle. -/
def Luz.toggleOff (_ : Luz LuzOff) : Luz LuzOn :=
  ⟨()⟩

/-- Source `impl Luz<LuzOn>` `toggle`: consumes the on handle, returns an
off handle. -/
def Luz.toggleOn (_ : Luz LuzOn) : Luz LuzOff :=
  ⟨()⟩

/-- Source `impl Luz<LuzOff>` `is_on`: constant `false`. -/
def Luz.is_onOff (_ : Luz LuzOff) : Bool :=
  false

/-- Source `impl Luz<LuzOn>` `is_on`: constant `true`. -/
def Luz.is_onOn (_ : Luz LuzOn) : Bool :=
  true

/-- Untyped view of a `Luz` handle in either state, used to speak about
sequences of toggles across the two typed impl blocks. -/
abbrev LuzE := Luz LuzOff ⊕ Luz LuzOn

/-- One toggle step on the untyped view, dispatching to the impl block of
the current state. -/
def LuzE.toggle : LuzE → LuzE
  | Sum.inl x => Sum.inr x.toggleOff
  | Sum.inr x => Sum.inl x.toggleOn

/-- Query `is_on` on the untyped view. -/
def LuzE.is_on : LuzE → Bool
  | Sum.inl x => x.is_onOff
  | Sum.inr x => x.is_onOn

/-- State struct `LumiereOff()`: no payload. -/
structure LumiereOff where
deriving DecidableEq

/-- State struct `LumiereOn(u8)`: carries the intensity payload. -/
structure LumiereOn where
  intensity : Nat
deriving DecidableEq

/-- Trait `LumiereState` with its `is_on` method. -/
class LumiereState (S : Type) where
  is_on : S → Bool

instance : LumiereState LumiereOn :=
  ⟨fun _ => true⟩

instance : LumiereState LumiereOff :=
  ⟨fun _ => false⟩

/-- Source `Lumiere<S: LumiereState>`: wraps the state value. -/
structure Lumiere (S : Type) where
  state : S
deriving DecidableEq

/-- Source generic `Lumiere::is_on`: delegates to the state's trait method. -/
def Lumiere.is_on {S : Type} [LumiereState S] (l : Lumiere S) : Bool :=
  LumiereState.is_on l.state

/-- Source `Lumiere<LumiereOff>::new`. -/
def Lumiere.new : Lumiere LumiereOff :=
  { state := {} }

/-- Source `impl Lumiere<LumiereOff>` `toggle`: consumes the off handle and
returns `Lumiere { state: LumiereOn(0) }`. -/
def Lumiere.toggleOff (_ : Lumiere LumiereOff) : Lumiere LumiereOn :=
  { state := { intensity := 0 } }

/-- Source `impl Lumiere<LumiereOn>` `toggle`: consumes the on handle,
discarding its payload, and returns the off state. -/
def Lumiere.toggleOn (_ : Lumiere LumiereOn) : Lumiere LumiereOff :=
  { state := {} }

/-- Source `Lumiere<LumiereOn>::regulate_intensity`: overwrites the `u8`
payload (`self.state.0 = intensity`). -/
def Lumiere.regulate_intensity (_ : Lumiere LumiereOn) (intensity : Nat) :
    Lumiere LumiereOn :=
  { state := { intensity := intensity % 256 } }

/-- Source `Lumiere<LumiereOn>::get_intensity`: reads the payload. -/
def Lumiere.get_intensity (l : Lumiere LumiereOn) : Nat :=
  l.state.intensity

/-- Untyped view of a `Lumiere` handle in either state, used to speak about
sequences of toggles across the two typed impl blocks. -/
abbrev LumE := Lumiere LumiereOff ⊕ Lumiere LumiereOn

/-- One toggle step on the untyped `Lumiere` view. -/
def LumE.toggle : LumE → LumE
  | Sum.inl x => Sum.inr x.toggleOff
  | Sum.inr x => Sum.inl x.toggleOn

/-- Query `is_on` on the untyped `Lumiere` view. -/
def LumE.is_on : LumE → Bool
  | Sum.inl x => x.is_on
  | Sum.inr x => x.is_on

/-- Iterate a step function `n` times. -/
def iter {α : Type} (f : α → α) : Nat → α → α
  | 0, x => x
  | n + 1, x => f (iter f n x)

/-! Helper lemmas shared by several claims. -/

theorem Light.toggle_flips_status_view (l : Light) : (l.toggle).is_on = !l.is_on := by
  cases l with
  | mk s i => cases s <;> rfl

theorem LuzE.toggle_flips_view (x : LuzE) :
    LuzE.is_on (LuzE.toggle x) = !LuzE.is_on x := by
  cases x <;> rfl

theorem LumE.toggle_flips_lum_view (x : LumE) :
    LumE.is_on (LumE.toggle x) = !LumE.is_on x := by
  cases x <;> rfl

theorem parity_flip (n : Nat) :
    (!decide (n % 2 = 1)) = decide ((n + 1) % 2 = 1) := by
  rcases Nat.mod_two_eq_zero_or_one n with h | h <;> simp [Nat.add_mod, h]

theorem iter_flip_is_on {α : Type} (f : α → α) (q : α → Bool)
    (hf : ∀ x, q (f x) = !q x) (x : α) (hx : q x = false) :
    ∀ n, q (iter f n x) = decide (n % 2 = 1) := by
  intro n
  induction n with
  | zero => simpa [iter] using hx
  | succ n ih => rw [iter, hf, ih, parity_flip]

theorem Light.reachable_off_intensity {l : Light} (h : Light.Reachable l) :
    l.is_on = false → l.intensity = 0 := by
  induction h with
  | new => exact fun _ => rfl
  | @toggle m hm ih =>
      intro hoff
      cases m with
      | mk s i =>
          cases s
          · exact absurd hoff (by simp [Light.toggle, Light.is_on])
          · rfl
  | @regulate m v hm ih =>
      intro hoff
      by_cases hs : m.is_on = true
      · have hst : m.status = true := hs
        exact absurd hoff (by simp [Light.regulate_intensity, Light.is_on, hst])
      · have hms : m.is_on = false := by simpa using hs
        have he : m.regulate_intensity v = m := by
          simp [Light.regulate_intensity, hms]
        rw [he] at hoff ⊢
        exact ih hoff

/-! Claim theorems. -/

/-- C1 counterexample: the claim that in every representation every reachable
On state has intensity at least 1 (with 10 assigned as the default on the
Off-to-On transition) is false. `Lumiere::new().toggle()` is On with
intensity 0, and the naive light reaches the On state with intensity 0 by
`Light::new().toggle()` followed by `regulate_intensity(0)`. -/
theorem C1_counterexample :
    (Lumiere.new.toggleOff).is_on = true
    ∧ (Lumiere.new.toggleOff).get_intensity = 0
    ∧ Light.Reachable ((Light.new.toggle).regulate_intensity 0)
    ∧ ((Light.new.toggle).regulate_intensity 0).is_on = true
    ∧ ((Light.new.toggle).regulate_intensity 0).intensity = 0
    ∧ ¬ (∀ l : Light, Light.Reachable l → l.is_on = true → 1 ≤ l.intensity) := by
  refine ⟨rfl, rfl,
    Light.Reachable.regulate 0 (Light.Reachable.toggle Light.Reachable.new),
    rfl, rfl, fun hall => ?_⟩
  have h := hall ((Light.new.toggle).regulate_intensity 0)
    (Light.Reachable.regulate 0 (Light.Reachable.toggle Light.Reachable.new)) rfl
  exact absurd h (by decide)

/-- C1 amended: in every reachable state of the naive `Light`, an Off light
has intensity exactly 0 (`Lumiere`'s Off state carries no intensity at
all); the Off-to-On toggle assigns the default 10 in the naive `Light` but
initializes the payload to 0 in `Lumiere`; an On light's intensity is not
bounded below by 1. -/
theorem C1_amended_invariant :
    (∀ l : Light, Light.Reachable l → l.is_on = false → l.intensity = 0)
    ∧ (∀ l : Light, l.is_on = false →
        (l.toggle).intensity = 10 ∧ (l.toggle).is_on = true)
    ∧ (∀ x : Lumiere LumiereOff,
        (x.toggleOff).get_intensity = 0 ∧ (x.toggleOff).is_on = true) := by
  refine ⟨fun l h => Light.reachable_off_intensity h, fun l h => ?_,
    fun x => ⟨rfl, rfl⟩⟩
  cases l with
  | mk s i =>
      cases s
      · exact ⟨rfl, rfl⟩
      · exact absurd h (by simp [Light.is_on])

/-- C1 amended witness: the amended invariant evaluated at the fresh naive
light, its first toggle, and the fresh `Lumiere` after its first toggle. -/
theorem C1_amended_invariant_witness :
    Light.new.intensity = 0 ∧ (Light.new.toggle).intensity = 10
    ∧ (Lumiere.new.toggleOff).get_intensity = 0 :=
  ⟨C1_amended_invariant.1 Light.new Light.Reachable.new rfl,
   (C1_amended_invariant.2.1 Light.new rfl).1,
   (C1_amended_invariant.2.2 Lumiere.new).1⟩

/-- C3: starting from a freshly created light, every variant alternates
strictly Off, On, Off, On under toggling: after an even number of toggles
`is_on` is false and after an odd number it is true. -/
theorem C3_toggle_alternation :
    (∀ n : Nat, (iter Light.toggle n Light.new).is_on = decide (n % 2 = 1))
    ∧ (∀ n : Nat,
        LuzE.is_on (iter LuzE.toggle n (Sum.inl Luz.new)) = decide (n % 2 = 1))
    ∧ (∀ n : Nat,
        LumE.is_on (iter LumE.toggle n (Sum.inl Lumiere.new))
          = decide (n % 2 = 1)) :=
  ⟨fun n => iter_flip_is_on Light.toggle Light.is_on Light.toggle_flips_status_view
      Light.new rfl n,
   fun n => iter_flip_is_on LuzE.toggle LuzE.is_on LuzE.toggle_flips_view
      (Sum.inl Luz.new) rfl n,
   fun n => iter_flip_is_on LumE.toggle LumE.is_on LumE.toggle_flips_lum_view
      (Sum.inl Lumiere.new) rfl n⟩

/-- C4: the naive `toggle` negates the `status` flag, and afterwards the
intensity is 10 when the light ended up On and 0 when it ended up Off. -/
theorem C4_naive_toggle (l : Light) :
    (l.toggle).status = !l.status
    ∧ (l.toggle).intensity = (if (l.toggle).is_on then 10 else 0) := by
  cases l with
  | mk s i => cases s <;> exact ⟨rfl, rfl⟩

/-- C5: in every variant and from every state, a double toggle preserves the
`is_on` observation, while intensity is reset to the variant's default (10
for the naive light when it ends up On, 0 for `Lumiere`), not to the value
last set. -/
theorem C5_double_toggle :
    (∀ l : Light, (l.toggle.toggle).is_on = l.is_on
        ∧ (l.toggle.toggle).intensity = (if l.is_on then 10 else 0))
    ∧ (∀ x : LuzE, LuzE.is_on (LuzE.toggle (LuzE.toggle x)) = LuzE.is_on x)
    ∧ (∀ x : LumE, LumE.is_on (LumE.toggle (LumE.toggle x)) = LumE.is_on x)
    ∧ (∀ y : Lumiere LumiereOn, (y.toggleOn.toggleOff).get_intensity = 0) := by
  refine ⟨fun l => ?_, fun x => ?_, fun x => ?_, fun y => rfl⟩
  · cases l with
    | mk s i => cases s <;> exact ⟨rfl, rfl⟩
  · cases x <;> rfl
  · cases x <;> rfl

/-- C6: toggling a `Lumiere` Off handle yields an On handle whose intensity
payload is initialized to 0. -/
theorem C6_lumiere_off_toggle (x : Lumiere LumiereOff) :
    (x.toggleOff).is_on = true ∧ (x.toggleOff).get_intensity = 0 :=
  ⟨rfl, rfl⟩

/-- C7: on an Off naive light, `regulate_intensity` is a silent no-op: the
value is unchanged, `is_on` stays false, and on reachable states the
intensity stays at 0. -/
theorem C7_off_set_intensity_noop (l : Light) (v : Nat) (h : l.is_on = false) :
    l.regulate_intensity v = l
    ∧ (l.regulate_intensity v).is_on = false
    ∧ (Light.Reachable l → (l.regulate_intensity v).intensity = 0) := by
  have he : l.regulate_intensity v = l := by
    simp [Light.regulate_intensity, h]
  refine ⟨he, by rw [he]; exact h, fun hr => ?_⟩
  rw [he]
  exact Light.reachable_off_intensity hr h

/-- C7 witness: the no-op evaluated at the fresh (Off) light with level
123. -/
theorem C7_off_set_intensity_noop_witness :
    Light.new.regulate_intensity 123 = Light.new
    ∧ (Light.new.regulate_intensity 123).intensity = 0 :=
  ⟨(C7_off_set_intensity_noop Light.new 123 rfl).1,
   (C7_off_set_intensity_noop Light.new 123 rfl).2.2 Light.Reachable.new⟩

/-- C8: every variant's constructor yields an Off value, with intensity 0
where an intensity field exists. -/
theorem C8_fresh_is_off :
    Light.new.is_on = false ∧ Light.new.intensity = 0
    ∧ Luz.new.is_onOff = false ∧ Lumiere.new.is_on = false :=
  ⟨rfl, rfl, rfl, rfl⟩

/-- C9: on an On light (naive or `Lumiere`), `regulate_intensity v` stores
exactly `v` for every `v` in 0..=255, and an On naive light with intensity
0 is reachable through the public operations. -/
theorem C9_regulate_stores_exactly (l : Light) (x : Lumiere LumiereOn)
    (v : Nat) (hl : l.is_on = true) (hv : v ≤ 255) :
    (l.regulate_intensity v).intensity = v
    ∧ (x.regulate_intensity v).get_intensity = v
    ∧ ∃ m : Light, Light.Reachable m ∧ m.is_on = true ∧ m.intensity = 0 := by
  have hv2 : v % 256 = v := Nat.mod_eq_of_lt (by omega)
  refine ⟨?_, ?_, ?_⟩
  · simp [Light.regulate_intensity, hl, hv2]
  · simp [Lumiere.regulate_intensity, Lumiere.get_intensity, hv2]
  · exact ⟨(Light.new.toggle).regulate_intensity 0,
      Light.Reachable.regulate 0 (Light.Reachable.toggle Light.Reachable.new),
      rfl, rfl⟩

/-- C9 witness: storing 200 on the first-toggled naive light and on the
first-toggled `Lumiere`. -/
theorem C9_regulate_stores_exactly_witness :
    ((Light.new.toggle).regulate_intensity 200).intensity = 200
    ∧ ((Lumiere.new.toggleOff).regulate_intensity 200).get_intensity = 200
    ∧ ∃ m : Light, Light.Reachable m ∧ m.is_on = true ∧ m.intensity = 0 :=
  C9_regulate_stores_exactly Light.new.toggle (Lumiere.new.toggleOff) 200
    rfl (by decide)

/-- C10: from the freshly created state, toggling twice restores the
complete observable state: the naive light returns to exactly
`(status = false, intensity = 0)` and `Lumiere` returns to a value equal to
the initial Off value. -/
theorem C10_fresh_double_toggle_identity :
    Light.new.toggle.toggle = Light.new
    ∧ Lumiere.new.toggleOff.toggleOn = Lumiere.new :=
  ⟨rfl, rfl⟩

end IdiomaticRust
